import Mathlib

/-!
Shallow embedding of the hub-monorepo engine module
(src/apps/hubble/src/eth/utils.ts): the helper bytes32ToBytes and the
Engine class (validation gate, merge router, revocation coordinator,
registry-event ingestion and the cast-store slice of the query surface).

Collaborators that the file imports but whose code is not part of the
embedded source (the six per-category stores, the shared validations
module, bytesCompare, hexStringToBytes, the flatbuffers models and
typeguards) are modelled as oracles in an environment structure, or as
definitions explicitly marked as modelled from the spec.

Byte strings are lists of naturals; machine-level byte bounds play no
role in any claim.
-/

/-- Byte strings (Uint8Array values) are modelled as lists of naturals. -/
abbrev Bytes := List Nat

/-- HubError carries an error code and a human-readable message, as in the
source's HubError class. -/
structure HubError where
  errCode : String
  message : String
deriving DecidableEq, Repr

/-- Result type mirroring neverthrow's ok / err tagged values
(HubResult in the source). -/
inductive HubResult (α : Type) where
  | ok (value : α)
  | err (error : HubError)
deriving DecidableEq, Repr

/- ------------------------------------------------------------------ -/
/- bytes32ToBytes                                                      -/
/- ------------------------------------------------------------------ -/

/-- Hexadecimal digits of a JavaScript bigint, as value.toString(16)
produces them: lowercase, no leading zeros, a lone digit 0 for zero, and
a leading minus sign for negative values. -/
def bigintHexChars : Int → List Char
  | Int.ofNat n => Nat.toDigits 16 n
  | Int.negSucc n => '-' :: Nat.toDigits 16 (n + 1)

/-- The padding-stripping loop of bytes32ToBytes, acting on the reversed
character list: while the string ends in the two characters 00 (that is,
the reversed list starts with two zeros), drop them. The source loop
tests hex.substring(hex.length - 2) against the string 00, which can
only hold when at least two characters remain. Structural recursion on
the reversed list is the loop's termination argument: every iteration
removes exactly two characters. -/
def stripLoopRev : List Char → List Char
  | c1 :: c2 :: rest =>
    if c1 = '0' ∧ c2 = '0' then stripLoopRev rest else c1 :: c2 :: rest
  | l => l

/-- Characters of the hexadecimal string produced by bytes32ToBytes after
removing the trailing 00 groups. -/
def bytes32Hex (value : Int) : List Char :=
  (stripLoopRev (bigintHexChars value).reverse).reverse

/-- bytes32ToBytes from the source: strip trailing 00 pairs from the hex
representation and hand the result to hexStringToBytes. The collaborator
hexStringToBytes comes from an imported utils package outside the
embedded source, so it is taken as a parameter. -/
def bytes32ToBytes (hexStringToBytes : List Char → HubResult Bytes) (value : Int) :
    HubResult Bytes :=
  hexStringToBytes (bytes32Hex value)

/-- True when the source loop's guard would fire: the string has at least
two characters and ends in 00. -/
def hasTrailing00 (l : List Char) : Bool :=
  match l.reverse with
  | '0' :: '0' :: _ => true
  | _ => false

/- ------------------------------------------------------------------ -/
/- Engine data model                                                   -/
/- ------------------------------------------------------------------ -/

/-- The set postfix of a message, the category tag the Merge Router
dispatches on (UserPostfix in the source). The source compares the
postfix against the six message-set values with an else branch, so the
embedding keeps an explicit case for any other tag value. -/
inductive UserPostfix where
  | CastMessage
  | FollowMessage
  | ReactionMessage
  | SignerMessage
  | VerificationMessage
  | UserDataMessage
  | otherTag (n : Nat)
deriving DecidableEq, Repr

/-- Message types from the generated flatbuffers schema, as read by
message.data.type(). -/
inductive MessageType where
  | CastAdd
  | CastRemove
  | FollowAdd
  | FollowRemove
  | ReactionAdd
  | ReactionRemove
  | SignerAdd
  | SignerRemove
  | VerificationAddEthAddress
  | VerificationRemove
  | UserDataAdd
deriving DecidableEq, Repr

/-- UserData body types from the generated flatbuffers schema; only Fname
matters to the engine. -/
inductive UserDataType where
  | Pfp
  | Display
  | Bio
  | Location
  | Url
  | Fname
deriving DecidableEq, Repr

/-- A message as the engine reads it: account id (fid), signer public key,
set postfix, flatbuffers message type, and for UserData messages the body
type and value. bodyValue models body().value(), a nullable string,
already passed through the TextEncoder (the source encodes value() with
value ?? the empty string, so none encodes to the empty byte string). -/
structure MessageModel where
  fid : Bytes
  signer : Bytes
  setPostfix : UserPostfix
  msgType : MessageType
  bodyUserDataType : UserDataType
  bodyValue : Option Bytes
deriving DecidableEq, Repr

/-- Modelled from the spec: the typeguard isSignerAdd from the flatbuffers
typeguards module (not part of the embedded source) recognises Signer Add
messages by their message type. -/
def isSignerAdd (m : MessageModel) : Bool :=
  m.msgType == MessageType.SignerAdd

/-- Modelled from the spec: the typeguard isSignerRemove recognises Signer
Remove messages by their message type. -/
def isSignerRemove (m : MessageModel) : Bool :=
  m.msgType == MessageType.SignerRemove

/-- Modelled from the spec: the typeguard isUserDataAdd recognises UserData
Add messages by their message type. -/
def isUserDataAdd (m : MessageModel) : Bool :=
  m.msgType == MessageType.UserDataAdd

/-- The fname bytes of a UserData message: the encoded body value with a
null value read as the empty string (value ?? the empty string). -/
def fnameBytes (m : MessageModel) : Bytes :=
  m.bodyValue.getD []

/-- An id-registry event as the engine reads it: event kind tag (a numeric
enum value in the generated schema), account id and destination custody
address. The two accepted kind values are distinct numeric tags. -/
structure IdRegistryEventModel where
  eventType : Nat
  fid : Bytes
  toAddress : Bytes
deriving DecidableEq, Repr

/-- IdRegistryEventType.IdRegistryRegister tag value. -/
def idRegistryRegister : Nat := 1

/-- IdRegistryEventType.IdRegistryTransfer tag value. -/
def idRegistryTransfer : Nat := 2

/-- A name-registry event: event kind tag, fname and destination custody
address. -/
structure NameRegistryEventModel where
  eventType : Nat
  fname : Bytes
  toAddress : Bytes
deriving DecidableEq, Repr

/-- NameRegistryEventType.NameRegistryTransfer tag value. -/
def nameRegistryTransfer : Nat := 1

/-- NameRegistryEventType.NameRegistryRenew tag value. -/
def nameRegistryRenew : Nat := 2

/- ------------------------------------------------------------------ -/
/- Store-call traces                                                   -/
/- ------------------------------------------------------------------ -/

/-- Observable calls the engine makes into its collaborator stores. Read
calls (suffix R) inspect store state; write calls (suffix W) mutate it.
Engine operations below return their result together with the list of
store calls they performed, in order. -/
inductive StoreCall where
  | getCustodyAddressR (fid : Bytes)
  | getSignerAddR (fid signer : Bytes)
  | idRegistryEventGetR (fid : Bytes)
  | nameRegistryEventGetR (fname : Bytes)
  | castGetAddsByUserR (fid : Bytes)
  | castGetRemovesByUserR (fid : Bytes)
  | castMergeW (m : MessageModel)
  | followMergeW (m : MessageModel)
  | reactionMergeW (m : MessageModel)
  | signerMergeW (m : MessageModel)
  | verificationMergeW (m : MessageModel)
  | userDataMergeW (m : MessageModel)
  | castRevokeW (fid signer : Bytes)
  | followRevokeW (fid signer : Bytes)
  | reactionRevokeW (fid signer : Bytes)
  | verificationRevokeW (fid signer : Bytes)
  | userDataRevokeW (fid signer : Bytes)
  | signerRevokeW (fid signer : Bytes)
  | signerMergeIdEventW (e : IdRegistryEventModel)
  | userDataMergeNameEventW (e : NameRegistryEventModel)
deriving DecidableEq, Repr

/-- Whether a store call mutates store state. -/
def StoreCall.isMutation : StoreCall → Bool
  | .getCustodyAddressR _ => false
  | .getSignerAddR _ _ => false
  | .idRegistryEventGetR _ => false
  | .nameRegistryEventGetR _ => false
  | .castGetAddsByUserR _ => false
  | .castGetRemovesByUserR _ => false
  | _ => true

/- ------------------------------------------------------------------ -/
/- Collaborator environment                                            -/
/- ------------------------------------------------------------------ -/

/-- Responses of the engine's collaborators. The per-category stores are
external CRDT state machines whose internals the spec excludes, so their
observable responses are oracles here. A none response of custodyAddress
or a false response of signerAddFound models the corresponding promise
rejection, which the source maps to a discarded error before branching.
idRegistryEventTo and nameRegistryEventTo give the to() address of the
stored event, none when the lookup finds no event (the source reads
event?.to()). schemaValidate models the imported shared validator of
step 4 (modelled from the spec: it inspects only the message, returning
none to accept it); revoke responses err to model a rejected store
promise; the cast-store read oracles back the query surface. -/
structure Env where
  custodyAddress : Bytes → Option Bytes
  signerAddFound : Bytes → Bytes → Bool
  idRegistryEventTo : Bytes → Option Bytes
  nameRegistryEventTo : Bytes → Option Bytes
  schemaValidate : MessageModel → Option HubError
  castMerge : MessageModel → HubResult Unit
  followMerge : MessageModel → HubResult Unit
  reactionMerge : MessageModel → HubResult Unit
  signerMerge : MessageModel → HubResult Unit
  verificationMerge : MessageModel → HubResult Unit
  userDataMerge : MessageModel → HubResult Unit
  castRevoke : Bytes → Bytes → HubResult Unit
  followRevoke : Bytes → Bytes → HubResult Unit
  reactionRevoke : Bytes → Bytes → HubResult Unit
  verificationRevoke : Bytes → Bytes → HubResult Unit
  userDataRevoke : Bytes → Bytes → HubResult Unit
  signerRevoke : Bytes → Bytes → HubResult Unit
  signerMergeIdEvent : IdRegistryEventModel → HubResult Unit
  userDataMergeNameEvent : NameRegistryEventModel → HubResult Unit
  castAddsByUser : Bytes → HubResult (List MessageModel)
  castRemovesByUser : Bytes → HubResult (List MessageModel)

/- ------------------------------------------------------------------ -/
/- Error values                                                        -/
/- ------------------------------------------------------------------ -/

/-- Error returned when the account has no custody address (step 1). -/
def unknownUserError : HubError :=
  ⟨"bad_request.validation_failure", "unknown user"⟩

/-- Error returned when the signer key is not in the account's signer set
(step 2). -/
def invalidSignerError : HubError :=
  ⟨"bad_request.validation_failure", "invalid signer"⟩

/-- Error returned when the fname custody address does not match the fid
custody address (step 3). -/
def fnameMismatchError : HubError :=
  ⟨"bad_request.validation_failure",
    "fname custody address does not match fid custody address"⟩

/-- Error returned by the Merge Router for an unrecognized category. -/
def invalidMessageTypeError : HubError :=
  ⟨"bad_request.validation_failure", "invalid message type"⟩

/-- Error returned by event ingestion for an unsupported event kind. -/
def invalidEventTypeError : HubError :=
  ⟨"bad_request.validation_failure", "invalid event type"⟩

/- ------------------------------------------------------------------ -/
/- Shared byte comparison and argument validators                      -/
/- ------------------------------------------------------------------ -/

/-- Modelled from the spec: bytesCompare from the shared flatbuffers utils
module (not part of the embedded source) is a full-content lexicographic
byte comparison, returning zero exactly on equal byte strings. -/
def bytesCompare : Bytes → Bytes → Int
  | [], [] => 0
  | [], _ :: _ => -1
  | _ :: _, [] => 1
  | a :: as, b :: bs =>
    if a < b then -1 else if b < a then 1 else bytesCompare as bs

/-- Modelled from the spec: the custody-address comparison applied to the
two registry lookups, with an absent binding (event not found) funneled
into the same nonzero mismatch branch as differing addresses. -/
def bytesCompareOpt : Option Bytes → Option Bytes → Int
  | some a, some b => bytesCompare a b
  | _, _ => 1

/-- Error returned by the account-id validator on a missing id. -/
def fidMissingError : HubError :=
  ⟨"bad_request.validation_failure", "fid is missing"⟩

/-- Modelled from the spec: validateFid from the shared validations module
(not part of the embedded source) checks the account-id format, rejecting
a missing (empty) id and passing the id through otherwise. -/
def validateFid (fid : Bytes) : HubResult Bytes :=
  if fid.isEmpty then HubResult.err fidMissingError else HubResult.ok fid

/- ------------------------------------------------------------------ -/
/- Validation Gate: Engine.validateMessage                             -/
/- ------------------------------------------------------------------ -/

/-- Step 4 of the gate: the imported shared schema/signature validator,
which accepts the message unchanged or rejects it with its own error. -/
def schemaStep (s : Env) (m : MessageModel) : HubResult MessageModel :=
  match s.schemaValidate m with
  | none => HubResult.ok m
  | some e => HubResult.err e

/-- Step 3 of the gate, reached with the custody and signer checks passed:
for a UserData Fname Add with non-empty value, read the fid's id-registry
event and the fname's name-registry event and require their to()
addresses to compare equal; otherwise fall through to the schema step. -/
def validateFnameStep (s : Env) (m : MessageModel) :
    HubResult MessageModel × List StoreCall :=
  if isUserDataAdd m ∧ m.bodyUserDataType = UserDataType.Fname then
    if (fnameBytes m).length > 0 then
      if bytesCompareOpt (s.idRegistryEventTo m.fid)
          (s.nameRegistryEventTo (fnameBytes m)) ≠ 0 then
        (HubResult.err fnameMismatchError,
          [StoreCall.idRegistryEventGetR m.fid,
            StoreCall.nameRegistryEventGetR (fnameBytes m)])
      else
        (schemaStep s m,
          [StoreCall.idRegistryEventGetR m.fid,
            StoreCall.nameRegistryEventGetR (fnameBytes m)])
    else
      (schemaStep s m, [])
  else
    (schemaStep s m, [])

/-- Engine.validateMessage: the four ordered, short-circuiting checks of
the Validation Gate, returning the result together with the store calls
performed. -/
def validateMessageE (s : Env) (m : MessageModel) :
    HubResult MessageModel × List StoreCall :=
  match s.custodyAddress m.fid with
  | none => (HubResult.err unknownUserError, [StoreCall.getCustodyAddressR m.fid])
  | some _ =>
    if ¬ isSignerAdd m ∧ ¬ isSignerRemove m then
      if s.signerAddFound m.fid m.signer then
        ((validateFnameStep s m).1,
          StoreCall.getCustodyAddressR m.fid ::
            StoreCall.getSignerAddR m.fid m.signer :: (validateFnameStep s m).2)
      else
        (HubResult.err invalidSignerError,
          [StoreCall.getCustodyAddressR m.fid,
            StoreCall.getSignerAddR m.fid m.signer])
    else
      ((validateFnameStep s m).1,
        StoreCall.getCustodyAddressR m.fid :: (validateFnameStep s m).2)

/- ------------------------------------------------------------------ -/
/- Merge Router: Engine.mergeMessage and Engine.mergeMessages          -/
/- ------------------------------------------------------------------ -/

/-- Engine.mergeMessage: run the Validation Gate, then dispatch on the
set postfix to the matching store's merge; an unrecognized postfix fails
before any store merge. On store success the source additionally emits an
audit log entry, which touches no store. -/
def mergeMessageE (s : Env) (m : MessageModel) : HubResult Unit × List StoreCall :=
  match (validateMessageE s m).1 with
  | HubResult.err e => (HubResult.err e, (validateMessageE s m).2)
  | HubResult.ok _ =>
    match m.setPostfix with
    | UserPostfix.CastMessage =>
      (s.castMerge m, (validateMessageE s m).2 ++ [StoreCall.castMergeW m])
    | UserPostfix.FollowMessage =>
      (s.followMerge m, (validateMessageE s m).2 ++ [StoreCall.followMergeW m])
    | UserPostfix.ReactionMessage =>
      (s.reactionMerge m, (validateMessageE s m).2 ++ [StoreCall.reactionMergeW m])
    | UserPostfix.SignerMessage =>
      (s.signerMerge m, (validateMessageE s m).2 ++ [StoreCall.signerMergeW m])
    | UserPostfix.VerificationMessage =>
      (s.verificationMerge m,
        (validateMessageE s m).2 ++ [StoreCall.verificationMergeW m])
    | UserPostfix.UserDataMessage =>
      (s.userDataMerge m, (validateMessageE s m).2 ++ [StoreCall.userDataMergeW m])
    | UserPostfix.otherTag _ =>
      (HubResult.err invalidMessageTypeError, (validateMessageE s m).2)

/-- Engine.mergeMessages: merge each message of the batch in input order,
collecting one result per message; the batch shares no state between
elements beyond the collaborator stores. -/
def mergeMessagesE (s : Env) : List MessageModel → List (HubResult Unit) × List StoreCall
  | [] => ([], [])
  | m :: rest =>
    ((mergeMessageE s m).1 :: (mergeMessagesE s rest).1,
      (mergeMessageE s m).2 ++ (mergeMessagesE s rest).2)

/- ------------------------------------------------------------------ -/
/- Registry-event ingestion                                            -/
/- ------------------------------------------------------------------ -/

/-- Engine.mergeIdRegistryEvent: accept only Register and Transfer kinds,
delegating them to the signer store; any other kind fails with no store
call. -/
def mergeIdRegistryEventE (s : Env) (e : IdRegistryEventModel) :
    HubResult Unit × List StoreCall :=
  if e.eventType = idRegistryRegister ∨ e.eventType = idRegistryTransfer then
    (s.signerMergeIdEvent e, [StoreCall.signerMergeIdEventW e])
  else
    (HubResult.err invalidEventTypeError, [])

/-- Engine.mergeNameRegistryEvent: accept only Transfer and Renew kinds,
delegating them to the user-data store; any other kind fails with no
store call. -/
def mergeNameRegistryEventE (s : Env) (e : NameRegistryEventModel) :
    HubResult Unit × List StoreCall :=
  if e.eventType = nameRegistryTransfer ∨ e.eventType = nameRegistryRenew then
    (s.userDataMergeNameEvent e, [StoreCall.userDataMergeNameEventW e])
  else
    (HubResult.err invalidEventTypeError, [])

/- ------------------------------------------------------------------ -/
/- Revocation Coordinator: Engine.revokeMessagesBySigner               -/
/- ------------------------------------------------------------------ -/

/-- Engine.revokeMessagesBySigner: await each of the six stores' revoke in
a fixed order and return ok. The source awaits the store promises bare,
without the ResultAsync wrapper used everywhere else, so a rejected store
promise escapes as a rejection of the engine's own promise instead of a
returned error value: the Except layer separates that fault channel
(Except.error) from the returned tagged value (Except.ok). -/
def revokeMessagesBySignerE (s : Env) (fid signer : Bytes) :
    Except HubError (HubResult Unit) × List StoreCall :=
  match s.castRevoke fid signer with
  | HubResult.err e => (Except.error e, [StoreCall.castRevokeW fid signer])
  | HubResult.ok _ =>
  match s.followRevoke fid signer with
  | HubResult.err e =>
    (Except.error e, [StoreCall.castRevokeW fid signer,
      StoreCall.followRevokeW fid signer])
  | HubResult.ok _ =>
  match s.reactionRevoke fid signer with
  | HubResult.err e =>
    (Except.error e, [StoreCall.castRevokeW fid signer,
      StoreCall.followRevokeW fid signer, StoreCall.reactionRevokeW fid signer])
  | HubResult.ok _ =>
  match s.verificationRevoke fid signer with
  | HubResult.err e =>
    (Except.error e, [StoreCall.castRevokeW fid signer,
      StoreCall.followRevokeW fid signer, StoreCall.reactionRevokeW fid signer,
      StoreCall.verificationRevokeW fid signer])
  | HubResult.ok _ =>
  match s.userDataRevoke fid signer with
  | HubResult.err e =>
    (Except.error e, [StoreCall.castRevokeW fid signer,
      StoreCall.followRevokeW fid signer, StoreCall.reactionRevokeW fid signer,
      StoreCall.verificationRevokeW fid signer,
      StoreCall.userDataRevokeW fid signer])
  | HubResult.ok _ =>
  match s.signerRevoke fid signer with
  | HubResult.err e =>
    (Except.error e, [StoreCall.castRevokeW fid signer,
      StoreCall.followRevokeW fid signer, StoreCall.reactionRevokeW fid signer,
      StoreCall.verificationRevokeW fid signer,
      StoreCall.userDataRevokeW fid signer, StoreCall.signerRevokeW fid signer])
  | HubResult.ok _ =>
    (Except.ok (HubResult.ok ()), [StoreCall.castRevokeW fid signer,
      StoreCall.followRevokeW fid signer, StoreCall.reactionRevokeW fid signer,
      StoreCall.verificationRevokeW fid signer,
      StoreCall.userDataRevokeW fid signer, StoreCall.signerRevokeW fid signer])

/- ------------------------------------------------------------------ -/
/- Query surface (cast-store slice)                                    -/
/- ------------------------------------------------------------------ -/

/-- Engine.getCastsByFid: validate the account id first and fail fast on a
format error, otherwise read the store's cast Add set. -/
def getCastsByFidE (s : Env) (fid : Bytes) :
    HubResult (List MessageModel) × List StoreCall :=
  match validateFid fid with
  | HubResult.ok v => (s.castAddsByUser v, [StoreCall.castGetAddsByUserR v])
  | HubResult.err e => (HubResult.err e, [])

/-- Engine.getAllCastMessagesByFid: read the cast Add set and Remove set
for the account and return their concatenation. The source performs no
argument validation in this accessor: the raw fid goes straight to the
store reads. -/
def getAllCastMessagesByFidE (s : Env) (fid : Bytes) :
    HubResult (List MessageModel) × List StoreCall :=
  match s.castAddsByUser fid with
  | HubResult.err e => (HubResult.err e, [StoreCall.castGetAddsByUserR fid])
  | HubResult.ok adds =>
    match s.castRemovesByUser fid with
    | HubResult.err e =>
      (HubResult.err e, [StoreCall.castGetAddsByUserR fid,
        StoreCall.castGetRemovesByUserR fid])
    | HubResult.ok removes =>
      (HubResult.ok (adds ++ removes), [StoreCall.castGetAddsByUserR fid,
        StoreCall.castGetRemovesByUserR fid])

/- ------------------------------------------------------------------ -/
/- Concrete environment and messages for witnesses                     -/
/- ------------------------------------------------------------------ -/

/-- Store-level failure used to exercise a rejected revoke promise. -/
def storageFailureError : HubError :=
  ⟨"unavailable.storage_failure", "revoke failed"⟩

/-- A concrete collaborator environment: account 9 is unknown, every other
account has custody address 170 171 and authorizes exactly the signer key
1 2; the id registry binds account 3 to address 170 171; the name
registry binds fname 97 to address 170 171 and fname 98 to address 99;
the schema validator accepts everything; all merges succeed; the cast
store's revoke rejects while the other stores' revokes succeed. -/
def sampleEnv : Env where
  custodyAddress := fun fid => if fid = [9] then none else some [170, 171]
  signerAddFound := fun _ signer => signer == [1, 2]
  idRegistryEventTo := fun fid => if fid = [3] then some [170, 171] else none
  nameRegistryEventTo := fun fn =>
    if fn = [97] then some [170, 171] else if fn = [98] then some [99] else none
  schemaValidate := fun _ => none
  castMerge := fun _ => HubResult.ok ()
  followMerge := fun _ => HubResult.ok ()
  reactionMerge := fun _ => HubResult.ok ()
  signerMerge := fun _ => HubResult.ok ()
  verificationMerge := fun _ => HubResult.ok ()
  userDataMerge := fun _ => HubResult.ok ()
  castRevoke := fun _ _ => HubResult.err storageFailureError
  followRevoke := fun _ _ => HubResult.ok ()
  reactionRevoke := fun _ _ => HubResult.ok ()
  verificationRevoke := fun _ _ => HubResult.ok ()
  userDataRevoke := fun _ _ => HubResult.ok ()
  signerRevoke := fun _ _ => HubResult.ok ()
  signerMergeIdEvent := fun _ => HubResult.ok ()
  userDataMergeNameEvent := fun _ => HubResult.ok ()
  castAddsByUser := fun _ => HubResult.ok []
  castRemovesByUser := fun _ => HubResult.ok []

/-- A valid cast message from account 3 signed by the authorized key. -/
def msgCast : MessageModel :=
  ⟨[3], [1, 2], UserPostfix.CastMessage, MessageType.CastAdd, UserDataType.Pfp, none⟩

/-- A cast message signed by a key outside the signer set. -/
def msgBadSigner : MessageModel :=
  ⟨[3], [5], UserPostfix.CastMessage, MessageType.CastAdd, UserDataType.Pfp, none⟩

/-- A message from the unknown account 9. -/
def msgUnknown : MessageModel :=
  ⟨[9], [1, 2], UserPostfix.CastMessage, MessageType.CastAdd, UserDataType.Pfp, none⟩

/-- A Signer Add message signed by a key outside the signer set. -/
def msgSignerAdd : MessageModel :=
  ⟨[3], [7], UserPostfix.SignerMessage, MessageType.SignerAdd, UserDataType.Pfp, none⟩

/-- A UserData Fname Add whose fname 97 is bound to the same custody
address as account 3. -/
def msgFnameGood : MessageModel :=
  ⟨[3], [1, 2], UserPostfix.UserDataMessage, MessageType.UserDataAdd,
    UserDataType.Fname, some [97]⟩

/-- A UserData Fname Add whose fname 98 is bound to a different custody
address. -/
def msgFnameBad : MessageModel :=
  ⟨[3], [1, 2], UserPostfix.UserDataMessage, MessageType.UserDataAdd,
    UserDataType.Fname, some [98]⟩

/-- A UserData Fname Add whose fname 100 has no name-registry binding. -/
def msgFnameUnbound : MessageModel :=
  ⟨[3], [1, 2], UserPostfix.UserDataMessage, MessageType.UserDataAdd,
    UserDataType.Fname, some [100]⟩

/-- A UserData Fname Add with empty value (handle removal). -/
def msgFnameEmpty : MessageModel :=
  ⟨[3], [1, 2], UserPostfix.UserDataMessage, MessageType.UserDataAdd,
    UserDataType.Fname, some []⟩

/-- A validated message carrying an unrecognized set postfix. -/
def msgOtherTag : MessageModel :=
  ⟨[3], [1, 2], UserPostfix.otherTag 99, MessageType.CastAdd, UserDataType.Pfp, none⟩

/-- A Register custody event for account 3. -/
def evRegister : IdRegistryEventModel := ⟨idRegistryRegister, [3], [170, 171]⟩

/-- A custody event of unsupported kind 7. -/
def evBadId : IdRegistryEventModel := ⟨7, [3], [170, 171]⟩

/-- A Renew name event for fname 97. -/
def evRenew : NameRegistryEventModel := ⟨nameRegistryRenew, [97], [170, 171]⟩

/-- A name event of unsupported kind 9. -/
def evBadName : NameRegistryEventModel := ⟨9, [97], [170, 171]⟩

/- ------------------------------------------------------------------ -/
/- Theorems                                                            -/
/- ------------------------------------------------------------------ -/

theorem stripLoopRev_spec (l : List Char) :
    ∃ k, l = List.replicate (2 * k) '0' ++ stripLoopRev l ∧
      ∀ r, stripLoopRev l ≠ '0' :: '0' :: r := by
  induction l using stripLoopRev.induct with
  | case1 c1 c2 rest h ih =>
    obtain ⟨hc1, hc2⟩ := h
    subst hc1
    subst hc2
    obtain ⟨k, hk, hs⟩ := ih
    have hstep : stripLoopRev ('0' :: '0' :: rest) = stripLoopRev rest := by
      simp [stripLoopRev]
    refine ⟨k + 1, ?_, by rw [hstep]; exact hs⟩
    rw [hstep]
    have h2 : 2 * (k + 1) = 2 * k + 1 + 1 := by ring
    rw [h2, List.replicate_succ, List.replicate_succ, List.cons_append,
      List.cons_append, ← hk]
  | case2 c1 c2 rest h =>
    have hstep : stripLoopRev (c1 :: c2 :: rest) = c1 :: c2 :: rest := by
      simp only [stripLoopRev]
      rw [if_neg h]
    refine ⟨0, by simp [hstep], ?_⟩
    intro r hr
    rw [hstep] at hr
    injection hr with h1 hr2
    injection hr2 with h2 _
    exact h ⟨h1, h2⟩
  | case3 l h =>
    have hstep : stripLoopRev l = l := by
      match l, h with
      | [], _ => rfl
      | [c], _ => rfl
      | c1 :: c2 :: rest, h => exact (h c1 c2 rest rfl).elim
    refine ⟨0, by simp [hstep], ?_⟩
    intro r hr
    rw [hstep] at hr
    exact h '0' '0' r hr

theorem bytesCompare_eq_zero_iff (a b : Bytes) : bytesCompare a b = 0 ↔ a = b := by
  induction a generalizing b with
  | nil => cases b <;> simp [bytesCompare]
  | cons x xs ih =>
    cases b with
    | nil => simp [bytesCompare]
    | cons y ys =>
      by_cases hxy : x < y
      · simp [bytesCompare, hxy]
        intro h
        omega
      · by_cases hyx : y < x
        · simp [bytesCompare, hxy, hyx]
          intro h
          omega
        · have hxy2 : x = y := by omega
          subst hxy2
          simp [bytesCompare, hxy, hyx, ih]

/- ------------------------------------------------------------------ -/
/- Helper lemmas                                                       -/
/- ------------------------------------------------------------------ -/

theorem isUserDataAdd_not_signer (m : MessageModel) (h : isUserDataAdd m = true) :
    isSignerAdd m = false ∧ isSignerRemove m = false := by
  unfold isUserDataAdd at h
  rw [beq_iff_eq] at h
  unfold isSignerAdd isSignerRemove
  rw [h]
  exact ⟨rfl, rfl⟩

theorem validateFnameStep_trace_reads (s : Env) (m : MessageModel) :
    ∀ c ∈ (validateFnameStep s m).2, StoreCall.isMutation c = false := by
  intro c hc
  unfold validateFnameStep at hc
  split_ifs at hc <;>
    simp only [List.mem_cons, List.not_mem_nil, or_false] at hc <;>
    rcases hc with h | h <;> subst h <;> rfl

theorem schemaStep_ok_eq (s : Env) (m : MessageModel) :
    ∀ r, schemaStep s m = HubResult.ok r → r = m := by
  unfold schemaStep
  intro r
  cases s.schemaValidate m with
  | none => intro h; injection h with h; exact h.symm
  | some e => intro h; exact absurd h (by simp)

theorem validateFnameStep_ok_eq (s : Env) (m : MessageModel) :
    ∀ r, (validateFnameStep s m).1 = HubResult.ok r → r = m := by
  intro r hr
  unfold validateFnameStep at hr
  split_ifs at hr <;>
    first
      | exact schemaStep_ok_eq s m r hr
      | exact absurd hr (by simp)

theorem validateMessageE_trace_reads (s : Env) (m : MessageModel) :
    ∀ c ∈ (validateMessageE s m).2, StoreCall.isMutation c = false := by
  intro c hc
  unfold validateMessageE at hc
  cases hcu : s.custodyAddress m.fid with
  | none =>
    simp only [hcu] at hc
    simp only [List.mem_cons, List.not_mem_nil, or_false] at hc
    subst hc; rfl
  | some a =>
    simp only [hcu] at hc
    split_ifs at hc <;>
      simp only [List.mem_cons, List.not_mem_nil, or_false] at hc
    · rcases hc with h | h | h
      · subst h; rfl
      · subst h; rfl
      · exact validateFnameStep_trace_reads s m c h
    · rcases hc with h | h
      · subst h; rfl
      · subst h; rfl
    · rcases hc with h | h
      · subst h; rfl
      · exact validateFnameStep_trace_reads s m c h

theorem validateMessageE_ok_eq (s : Env) (m : MessageModel) :
    ∀ r, (validateMessageE s m).1 = HubResult.ok r → r = m := by
  intro r hr
  unfold validateMessageE at hr
  cases hcu : s.custodyAddress m.fid with
  | none =>
    simp only [hcu] at hr
    exact absurd hr (by simp)
  | some a =>
    simp only [hcu] at hr
    split_ifs at hr <;>
      first
        | exact validateFnameStep_ok_eq s m r hr
        | exact absurd hr (by simp)

theorem validateMessageE_nonsigner (s : Env) (m : MessageModel) (a : Bytes)
    (hc : s.custodyAddress m.fid = some a)
    (hns : isSignerAdd m = false) (hnr : isSignerRemove m = false)
    (hmem : s.signerAddFound m.fid m.signer = true) :
    validateMessageE s m = ((validateFnameStep s m).1,
      StoreCall.getCustodyAddressR m.fid ::
        StoreCall.getSignerAddR m.fid m.signer :: (validateFnameStep s m).2) := by
  unfold validateMessageE
  rw [hc]
  simp [hns, hnr, hmem]

theorem validateMessageE_signer_msg (s : Env) (m : MessageModel)
    (h : ¬(¬ isSignerAdd m = true ∧ ¬ isSignerRemove m = true)) :
    validateMessageE s m =
      match s.custodyAddress m.fid with
      | none =>
        (HubResult.err unknownUserError, [StoreCall.getCustodyAddressR m.fid])
      | some _ => ((validateFnameStep s m).1,
          StoreCall.getCustodyAddressR m.fid :: (validateFnameStep s m).2) := by
  unfold validateMessageE
  cases s.custodyAddress m.fid with
  | none => rfl
  | some a => rw [if_neg h]

theorem bytesCompareOpt_none (a b : Option Bytes) (h : a = none ∨ b = none) :
    bytesCompareOpt a b = 1 := by
  cases a <;> cases b <;> simp [bytesCompareOpt] <;> rcases h with h | h <;>
    simp at h

/- ------------------------------------------------------------------ -/
/- Claim theorems                                                      -/
/- ------------------------------------------------------------------ -/

/-- C4: a message whose account has no resolvable custody address fails
validation with the unknown-user auth error (the spec's AuthError for an
unknown account) as the very first check: the only store call performed
by validation and by the surrounding merge is the single custody-address
read, so the signer-membership, fname and schema checks never run and no
store merge happens. Independence from every other environment field also
shows the failure precedes the later checks. -/
theorem unknown_account_rejected_first (s : Env) (m : MessageModel)
    (hc : s.custodyAddress m.fid = none) :
    validateMessageE s m =
      (HubResult.err unknownUserError, [StoreCall.getCustodyAddressR m.fid]) ∧
    mergeMessageE s m =
      (HubResult.err unknownUserError, [StoreCall.getCustodyAddressR m.fid]) := by
  have h1 : validateMessageE s m =
      (HubResult.err unknownUserError, [StoreCall.getCustodyAddressR m.fid]) := by
    unfold validateMessageE
    rw [hc]
  refine ⟨h1, ?_⟩
  unfold mergeMessageE
  rw [h1]

/-- Witness for C4 at the concrete unknown account 9. -/
theorem unknown_account_rejected_first_witness :
    validateMessageE sampleEnv msgUnknown =
      (HubResult.err unknownUserError, [StoreCall.getCustodyAddressR [9]]) ∧
    mergeMessageE sampleEnv msgUnknown =
      (HubResult.err unknownUserError, [StoreCall.getCustodyAddressR [9]]) :=
  unknown_account_rejected_first sampleEnv msgUnknown rfl

/-- C1: for a message that is neither a Signer Add nor a Signer Remove,
with the account's custody address resolved, a signer key outside the
account's signer set makes validation and the surrounding merge fail with
the invalid-signer auth error while the trace holds only the custody and
signer reads, so no store merge is performed; and for Signer Add/Remove
messages validation never performs the signer-membership read at all. -/
theorem signer_membership_gate :
    (∀ (s : Env) (m : MessageModel) (a : Bytes),
      s.custodyAddress m.fid = some a →
      isSignerAdd m = false → isSignerRemove m = false →
      s.signerAddFound m.fid m.signer = false →
      validateMessageE s m = (HubResult.err invalidSignerError,
        [StoreCall.getCustodyAddressR m.fid,
          StoreCall.getSignerAddR m.fid m.signer]) ∧
      mergeMessageE s m = (HubResult.err invalidSignerError,
        [StoreCall.getCustodyAddressR m.fid,
          StoreCall.getSignerAddR m.fid m.signer])) ∧
    (∀ (s : Env) (m : MessageModel),
      isSignerAdd m = true ∨ isSignerRemove m = true →
      ∀ fid k, StoreCall.getSignerAddR fid k ∉ (validateMessageE s m).2) := by
  constructor
  · intro s m a hc hns hnr hmem
    have h1 : validateMessageE s m = (HubResult.err invalidSignerError,
        [StoreCall.getCustodyAddressR m.fid,
          StoreCall.getSignerAddR m.fid m.signer]) := by
      unfold validateMessageE
      rw [hc]
      simp [hns, hnr, hmem]
    refine ⟨h1, ?_⟩
    unfold mergeMessageE
    rw [h1]
  · intro s m h fid k hmember
    have hni : ¬(¬ isSignerAdd m = true ∧ ¬ isSignerRemove m = true) := by
      rcases h with h | h <;> simp [h]
    rw [validateMessageE_signer_msg s m hni] at hmember
    cases hcu : s.custodyAddress m.fid with
    | none =>
      rw [hcu] at hmember
      simp only [List.mem_cons, List.not_mem_nil, or_false] at hmember
      exact StoreCall.noConfusion hmember
    | some a =>
      rw [hcu] at hmember
      simp only [List.mem_cons] at hmember
      rcases hmember with hx | hx
      · exact StoreCall.noConfusion hx
      · have := validateFnameStep_trace_reads s m _ hx
        have hall : ∀ c ∈ (validateFnameStep s m).2,
            c = StoreCall.idRegistryEventGetR m.fid ∨
            c = StoreCall.nameRegistryEventGetR (fnameBytes m) := by
          intro c hcm
          unfold validateFnameStep at hcm
          split_ifs at hcm <;>
            simp only [List.mem_cons, List.not_mem_nil, or_false] at hcm <;>
            tauto
        rcases hall _ hx with hy | hy <;> exact StoreCall.noConfusion hy

/-- Witness for C1: a cast message with an unauthorized signer is rejected
with the invalid-signer error, and a Signer Add message with the same
unauthorized signer skips the membership read. -/
theorem signer_membership_gate_witness :
    validateMessageE sampleEnv msgBadSigner = (HubResult.err invalidSignerError,
      [StoreCall.getCustodyAddressR [3], StoreCall.getSignerAddR [3] [5]]) ∧
    (validateMessageE sampleEnv msgSignerAdd).2.contains
      (StoreCall.getSignerAddR [3] [7]) = false :=
  ⟨(signer_membership_gate.1 sampleEnv msgBadSigner [170, 171] rfl rfl rfl rfl).1,
    by
      have h := signer_membership_gate.2 sampleEnv msgSignerAdd (Or.inl rfl) [3] [7]
      simpa using h⟩

/-- C9: the Validation Gate is a pure check: every store call it performs
is a read (it mutates no store state), and when it succeeds it returns
the input message unchanged. -/
theorem validate_gate_pure (s : Env) (m : MessageModel) :
    (∀ c ∈ (validateMessageE s m).2, StoreCall.isMutation c = false) ∧
    (∀ r, (validateMessageE s m).1 = HubResult.ok r → r = m) :=
  ⟨validateMessageE_trace_reads s m, validateMessageE_ok_eq s m⟩

/-- Witness for C9 at a concrete passing message: the custody read in the
trace is not a mutation, and the successful result carries the message
itself. -/
theorem validate_gate_pure_witness :
    StoreCall.isMutation (StoreCall.getCustodyAddressR [3]) = false ∧
    msgCast = msgCast :=
  ⟨(validate_gate_pure sampleEnv msgCast).1 (StoreCall.getCustodyAddressR [3])
      (by rw [show validateMessageE sampleEnv msgCast = (HubResult.ok msgCast,
        [StoreCall.getCustodyAddressR [3],
          StoreCall.getSignerAddR [3] [1, 2]]) from rfl]; simp),
    (validate_gate_pure sampleEnv msgCast).2 msgCast rfl⟩

/-- C2: with the custody and signer checks passed, a UserData Fname Add
with non-empty value fails with the fname custody mismatch auth error
whenever the full-content byte comparison of the fid's custody address
and the fname's bound custody address is nonzero — in particular whenever
either registry lookup finds no event, which is funneled into the same
mismatch outcome — and proceeds to the schema step when both resolve to
equal addresses; a message with empty fname value skips the check
entirely, performing no registry read; and the comparison is zero exactly
on byte-equal addresses. -/
theorem fname_custody_gate (s : Env) (m : MessageModel) (a : Bytes)
    (hc : s.custodyAddress m.fid = some a)
    (hmem : s.signerAddFound m.fid m.signer = true)
    (hu : isUserDataAdd m = true)
    (hf : m.bodyUserDataType = UserDataType.Fname) :
    (fnameBytes m ≠ [] →
      (bytesCompareOpt (s.idRegistryEventTo m.fid)
          (s.nameRegistryEventTo (fnameBytes m)) ≠ 0 →
        (validateMessageE s m).1 = HubResult.err fnameMismatchError) ∧
      ((s.idRegistryEventTo m.fid = none ∨
          s.nameRegistryEventTo (fnameBytes m) = none) →
        (validateMessageE s m).1 = HubResult.err fnameMismatchError) ∧
      (∀ b, s.idRegistryEventTo m.fid = some b →
        s.nameRegistryEventTo (fnameBytes m) = some b →
        (validateMessageE s m).1 = schemaStep s m)) ∧
    (fnameBytes m = [] →
      validateMessageE s m = (schemaStep s m,
        [StoreCall.getCustodyAddressR m.fid,
          StoreCall.getSignerAddR m.fid m.signer])) ∧
    (∀ x y : Bytes, bytesCompareOpt (some x) (some y) = 0 ↔ x = y) := by
  obtain ⟨hns, hnr⟩ := isUserDataAdd_not_signer m hu
  have hbase := validateMessageE_nonsigner s m a hc hns hnr hmem
  refine ⟨?_, ?_, ?_⟩
  · intro hne
    have hlen : (fnameBytes m).length > 0 := List.length_pos.mpr hne
    refine ⟨?_, ?_, ?_⟩
    · intro hcmp
      rw [hbase]
      unfold validateFnameStep
      rw [if_pos ⟨hu, hf⟩, if_pos hlen, if_pos hcmp]
    · intro hnone
      rw [hbase]
      unfold validateFnameStep
      have hcmp : bytesCompareOpt (s.idRegistryEventTo m.fid)
          (s.nameRegistryEventTo (fnameBytes m)) ≠ 0 := by
        rw [bytesCompareOpt_none _ _ hnone]
        decide
      rw [if_pos ⟨hu, hf⟩, if_pos hlen, if_pos hcmp]
    · intro b hid hname
      rw [hbase]
      unfold validateFnameStep
      have hcmp : bytesCompareOpt (s.idRegistryEventTo m.fid)
          (s.nameRegistryEventTo (fnameBytes m)) = 0 := by
        rw [hid, hname]
        simp [bytesCompareOpt, bytesCompare_eq_zero_iff]
      rw [if_pos ⟨hu, hf⟩, if_pos hlen, if_neg (not_not_intro hcmp)]
  · intro hemp
    have hlen : ¬ (fnameBytes m).length > 0 := by
      rw [hemp]
      decide
    rw [hbase]
    unfold validateFnameStep
    rw [if_pos ⟨hu, hf⟩, if_neg hlen]
  · intro x y
    simp [bytesCompareOpt, bytesCompare_eq_zero_iff]

/-- Witness for C2 at concrete messages: fname 98 bound to a different
address is rejected, fname 100 with no binding is rejected the same way,
fname 97 bound to the account's own custody address passes, and the
empty-value message skips the check with no registry read. -/
theorem fname_custody_gate_witness :
    (validateMessageE sampleEnv msgFnameBad).1 =
      HubResult.err fnameMismatchError ∧
    (validateMessageE sampleEnv msgFnameUnbound).1 =
      HubResult.err fnameMismatchError ∧
    (validateMessageE sampleEnv msgFnameGood).1 = HubResult.ok msgFnameGood ∧
    validateMessageE sampleEnv msgFnameEmpty = (HubResult.ok msgFnameEmpty,
      [StoreCall.getCustodyAddressR [3], StoreCall.getSignerAddR [3] [1, 2]]) := by
  refine ⟨?_, ?_, ?_, ?_⟩
  · exact ((fname_custody_gate sampleEnv msgFnameBad [170, 171]
      rfl rfl rfl rfl).1 (by decide)).1 (by decide)
  · exact ((fname_custody_gate sampleEnv msgFnameUnbound [170, 171]
      rfl rfl rfl rfl).1 (by decide)).2.1 (Or.inr rfl)
  · exact (((fname_custody_gate sampleEnv msgFnameGood [170, 171]
      rfl rfl rfl rfl).1 (by decide)).2.2 [170, 171] rfl rfl).trans rfl
  · exact ((fname_custody_gate sampleEnv msgFnameEmpty [170, 171]
      rfl rfl rfl rfl).2.1 rfl).trans rfl

/-- C5: after validation succeeds, the Merge Router dispatches on the set
postfix: a tag outside the six categories yields the invalid-message-type
request error with a trace of validation reads only (no store merge),
and each of the six category tags dispatches exactly to that category's
store merge, appending the single matching merge call to the trace. -/
theorem merge_dispatch_by_category (s : Env) (m : MessageModel)
    (m' : MessageModel) (hv : (validateMessageE s m).1 = HubResult.ok m') :
    (∀ n, m.setPostfix = UserPostfix.otherTag n →
      mergeMessageE s m =
        (HubResult.err invalidMessageTypeError, (validateMessageE s m).2) ∧
      ∀ c ∈ (mergeMessageE s m).2, StoreCall.isMutation c = false) ∧
    (m.setPostfix = UserPostfix.CastMessage →
      mergeMessageE s m = (s.castMerge m,
        (validateMessageE s m).2 ++ [StoreCall.castMergeW m])) ∧
    (m.setPostfix = UserPostfix.FollowMessage →
      mergeMessageE s m = (s.followMerge m,
        (validateMessageE s m).2 ++ [StoreCall.followMergeW m])) ∧
    (m.setPostfix = UserPostfix.ReactionMessage →
      mergeMessageE s m = (s.reactionMerge m,
        (validateMessageE s m).2 ++ [StoreCall.reactionMergeW m])) ∧
    (m.setPostfix = UserPostfix.SignerMessage →
      mergeMessageE s m = (s.signerMerge m,
        (validateMessageE s m).2 ++ [StoreCall.signerMergeW m])) ∧
    (m.setPostfix = UserPostfix.VerificationMessage →
      mergeMessageE s m = (s.verificationMerge m,
        (validateMessageE s m).2 ++ [StoreCall.verificationMergeW m])) ∧
    (m.setPostfix = UserPostfix.UserDataMessage →
      mergeMessageE s m = (s.userDataMerge m,
        (validateMessageE s m).2 ++ [StoreCall.userDataMergeW m])) := by
  refine ⟨?_, ?_, ?_, ?_, ?_, ?_, ?_⟩
  · intro n hp
    have he : mergeMessageE s m =
        (HubResult.err invalidMessageTypeError, (validateMessageE s m).2) := by
      unfold mergeMessageE
      rw [hv, hp]
    refine ⟨he, ?_⟩
    rw [he]
    exact validateMessageE_trace_reads s m
  all_goals intro hp
  all_goals unfold mergeMessageE
  all_goals rw [hv, hp]

/-- Witness for C5: the valid cast message dispatches to the cast store's
merge, and the same message under an unrecognized tag is rejected with no
store merge in its trace. -/
theorem merge_dispatch_by_category_witness :
    mergeMessageE sampleEnv msgCast = (HubResult.ok (),
      [StoreCall.getCustodyAddressR [3], StoreCall.getSignerAddR [3] [1, 2],
        StoreCall.castMergeW msgCast]) ∧
    mergeMessageE sampleEnv msgOtherTag = (HubResult.err invalidMessageTypeError,
      [StoreCall.getCustodyAddressR [3], StoreCall.getSignerAddR [3] [1, 2]]) :=
  ⟨((merge_dispatch_by_category sampleEnv msgCast msgCast rfl).2.1 rfl).trans rfl,
    (((merge_dispatch_by_category sampleEnv msgOtherTag msgOtherTag rfl).1
      99 rfl).1).trans rfl⟩

/-- C6: mergeMessages returns exactly one result per input message, result
i being the outcome of merging message i, with the store-call trace the
in-order concatenation of the per-message traces: a failing message
contributes no mutation and neither blocks nor undoes the store calls of
its siblings. -/
theorem merge_many_per_message (s : Env) (ms : List MessageModel) :
    mergeMessagesE s ms =
      (ms.map fun m => (mergeMessageE s m).1,
        (ms.map fun m => (mergeMessageE s m).2).flatten) ∧
    (mergeMessagesE s ms).1.length = ms.length ∧
    ∀ i : Nat, (mergeMessagesE s ms).1[i]? =
      ms[i]?.map fun m => (mergeMessageE s m).1 := by
  have hmain : mergeMessagesE s ms =
      (ms.map fun m => (mergeMessageE s m).1,
        (ms.map fun m => (mergeMessageE s m).2).flatten) := by
    induction ms with
    | nil => rfl
    | cons m rest ih =>
      unfold mergeMessagesE
      rw [ih]
      simp
  refine ⟨hmain, ?_, ?_⟩
  · rw [hmain]
    simp
  · intro i
    rw [hmain]
    simp

/-- C8: custody-event ingestion accepts exactly the Register and Transfer
kinds, delegating them to the signer store, and name-event ingestion
accepts exactly the Transfer and Renew kinds, delegating them to the
user-data store; any other kind yields the invalid-event-type request
error with no store call. -/
theorem registry_event_kind_gate (s : Env) :
    (∀ e : IdRegistryEventModel,
      e.eventType = idRegistryRegister ∨ e.eventType = idRegistryTransfer →
      mergeIdRegistryEventE s e =
        (s.signerMergeIdEvent e, [StoreCall.signerMergeIdEventW e])) ∧
    (∀ e : IdRegistryEventModel,
      e.eventType ≠ idRegistryRegister → e.eventType ≠ idRegistryTransfer →
      mergeIdRegistryEventE s e = (HubResult.err invalidEventTypeError, [])) ∧
    (∀ e : NameRegistryEventModel,
      e.eventType = nameRegistryTransfer ∨ e.eventType = nameRegistryRenew →
      mergeNameRegistryEventE s e =
        (s.userDataMergeNameEvent e, [StoreCall.userDataMergeNameEventW e])) ∧
    (∀ e : NameRegistryEventModel,
      e.eventType ≠ nameRegistryTransfer → e.eventType ≠ nameRegistryRenew →
      mergeNameRegistryEventE s e = (HubResult.err invalidEventTypeError, [])) := by
  refine ⟨?_, ?_, ?_, ?_⟩
  · intro e h
    unfold mergeIdRegistryEventE
    rw [if_pos h]
  · intro e h1 h2
    unfold mergeIdRegistryEventE
    rw [if_neg (by tauto)]
  · intro e h
    unfold mergeNameRegistryEventE
    rw [if_pos h]
  · intro e h1 h2
    unfold mergeNameRegistryEventE
    rw [if_neg (by tauto)]

/-- Witness for C8 at concrete events: a Register custody event reaches
the signer store, kind 7 is rejected with no store call, a Renew name
event reaches the user-data store, and kind 9 is rejected with no store
call. -/
theorem registry_event_kind_gate_witness :
    mergeIdRegistryEventE sampleEnv evRegister =
      (HubResult.ok (), [StoreCall.signerMergeIdEventW evRegister]) ∧
    mergeIdRegistryEventE sampleEnv evBadId =
      (HubResult.err invalidEventTypeError, []) ∧
    mergeNameRegistryEventE sampleEnv evRenew =
      (HubResult.ok (), [StoreCall.userDataMergeNameEventW evRenew]) ∧
    mergeNameRegistryEventE sampleEnv evBadName =
      (HubResult.err invalidEventTypeError, []) :=
  ⟨((registry_event_kind_gate sampleEnv).1 evRegister (Or.inl rfl)).trans rfl,
    (registry_event_kind_gate sampleEnv).2.1 evBadId (by decide) (by decide),
    ((registry_event_kind_gate sampleEnv).2.2.1 evRenew (Or.inr rfl)).trans rfl,
    (registry_event_kind_gate sampleEnv).2.2.2 evBadName (by decide) (by decide)⟩

/-- C3 (code-bug evidence): with the cast store's revoke rejecting, the
revocation coordinator neither attempts the remaining five stores nor
returns an error value: the failure escapes on the fault channel
(Except.error models the source's unwrapped await of the store promise,
which rejects the engine's own returned promise), never as a returned
tagged err. Every sibling operation in this file returns a plain
HubResult because the source wraps their store calls in
ResultAsync.fromPromise; revokeMessagesBySigner alone does not. -/
theorem revoke_store_failure_faults :
    revokeMessagesBySignerE sampleEnv [3] [1, 2] =
      (Except.error storageFailureError, [StoreCall.castRevokeW [3] [1, 2]]) ∧
    (revokeMessagesBySignerE sampleEnv [3] [1, 2]).1.isOk = false ∧
    revokeMessagesBySignerE { sampleEnv with
        castRevoke := fun _ _ => HubResult.ok () } [3] [1, 2] =
      (Except.ok (HubResult.ok ()),
        [StoreCall.castRevokeW [3] [1, 2], StoreCall.followRevokeW [3] [1, 2],
          StoreCall.reactionRevokeW [3] [1, 2],
          StoreCall.verificationRevokeW [3] [1, 2],
          StoreCall.userDataRevokeW [3] [1, 2],
          StoreCall.signerRevokeW [3] [1, 2]]) :=
  ⟨rfl, rfl, rfl⟩

/-- C7 counterexample: the empty byte string is an invalid account id
(validateFid rejects it), yet getAllCastMessagesByFid performs both store
reads with it and returns the store's answer instead of failing fast with
a request error before store access. -/
theorem query_validation_counterexample :
    validateFid [] = HubResult.err fidMissingError ∧
    getAllCastMessagesByFidE sampleEnv [] = (HubResult.ok [],
      [StoreCall.castGetAddsByUserR [], StoreCall.castGetRemovesByUserR []]) :=
  ⟨rfl, rfl⟩

/-- C7 amended: the keyed accessors validate their key arguments first and
fail fast with a request error before any store access — getCastsByFid
returns the validator's error with an empty trace on an invalid account
id, and only touches the store once validation passes — but the
getAll-messages accessors do not: getAllCastMessagesByFid always begins
with a store read on the raw account id, validated or not. -/
theorem query_surface_validation_amended (s : Env) (fid : Bytes) :
    (∀ e, validateFid fid = HubResult.err e →
      getCastsByFidE s fid = (HubResult.err e, [])) ∧
    (∀ v, validateFid fid = HubResult.ok v →
      getCastsByFidE s fid =
        (s.castAddsByUser v, [StoreCall.castGetAddsByUserR v])) ∧
    (getAllCastMessagesByFidE s fid).2.head? =
      some (StoreCall.castGetAddsByUserR fid) := by
  refine ⟨?_, ?_, ?_⟩
  · intro e h
    unfold getCastsByFidE
    rw [h]
  · intro v h
    unfold getCastsByFidE
    rw [h]
  · unfold getAllCastMessagesByFidE
    cases s.castAddsByUser fid with
    | ok adds => cases s.castRemovesByUser fid <;> rfl
    | err e => rfl

/-- Witness for C7 amended: at the invalid (empty) account id, the keyed
accessor fails fast with an empty trace while the getAll accessor still
starts with a store read. -/
theorem query_surface_validation_amended_witness :
    getCastsByFidE sampleEnv [] = (HubResult.err fidMissingError, []) ∧
    (getAllCastMessagesByFidE sampleEnv []).2.head? =
      some (StoreCall.castGetAddsByUserR []) :=
  ⟨(query_surface_validation_amended sampleEnv []).1 fidMissingError rfl,
    (query_surface_validation_amended sampleEnv []).2.2⟩

/-- C10: the padding-stripping loop of bytes32ToBytes terminates on every
bigint input — each iteration removes exactly two characters, which the
structural recursion of stripLoopRev witnesses — so bytes32ToBytes is a
total function handing hexStringToBytes the hexadecimal representation of
the value with all trailing 00 two-character groups removed: the original
digits are the stripped digits followed by some number of 00 pairs, and
the stripped digits end in no further 00 pair. -/
theorem bytes32ToBytes_strips_padding (h : List Char → HubResult Bytes)
    (value : Int) :
    bytes32ToBytes h value = h (bytes32Hex value) ∧
    (∃ k, bigintHexChars value = bytes32Hex value ++ List.replicate (2 * k) '0') ∧
    hasTrailing00 (bytes32Hex value) = false := by
  refine ⟨rfl, ?_, ?_⟩
  · obtain ⟨k, hk, _⟩ := stripLoopRev_spec (bigintHexChars value).reverse
    refine ⟨k, ?_⟩
    have := congrArg List.reverse hk
    rw [List.reverse_reverse, List.reverse_append, List.reverse_replicate] at this
    exact this
  · obtain ⟨k, _, hs⟩ := stripLoopRev_spec (bigintHexChars value).reverse
    unfold hasTrailing00 bytes32Hex
    rw [List.reverse_reverse]
    split
    · rename_i heq
      exact absurd heq (hs _)
    · rfl
